import Mathlib

/-!
Verification of the bounded-concurrency S3 checksum pipeline
(src/get_all_s3_checksums.py, src/get_s3_checksums.py).

The object store is modelled per object as a record of call outcomes
(tag read, metadata fetch, body fetch, tag writes); the body stream is a
list of chunk-read outcomes.  Each embedded operation returns its value
together with the list of store calls it performed, and fallible Python
control flow is mirrored with Except: an Except.error value models an
exception escaping the function, Except.ok models a normal return.
-/

namespace S3Checksums

/-- Metadata of an object as returned by head_object or get_object:
ContentLength, ETag, optional VersionId and LastModified.isoformat(). -/
structure HeadMeta where
  contentLength : Int
  eTag : String
  versionId : Option String
  lastModified : String
deriving Repr, DecidableEq

/-- Response of get_object: metadata plus the body stream, a sequence of
chunk-read outcomes.  An Except.error element is a read that raises; an
empty-string chunk (or stream end) terminates the read loop. -/
structure GetObjResp where
  meta : HeadMeta
  body : List (Except Unit String)
deriving Repr

/-- Per-object outcomes of the store calls the processor can make. -/
structure ObjStoreState where
  getTagging : Except Unit (List (String × String))
  headObject : Except Unit HeadMeta
  getObject : Except Unit GetObjResp
  putTagging : Except Unit Unit
  putTaggingVersioned : Except Unit Unit
deriving Repr

/-- Store calls recorded in the trace of a processor run. -/
inductive S3Call where
  | getTaggingC
  | headC
  | getObjectC
  | putTaggingC (versioned : Bool)
deriving Repr, DecidableEq

/-- The result dict built by get_s3_object_checksums: identifying fields,
metadata, the run-internal skipped flag and one checksum per requested
algorithm in request order. -/
structure ObjectResult where
  bucket : String
  key : String
  size : Int
  eTag : String
  versionId : String
  lastModified : String
  skipped : Bool
  checks : List (String × String)
deriving Repr, DecidableEq

/-- A CSV row: the result with the skipped key popped off. -/
structure Row where
  bucket : String
  key : String
  size : Int
  eTag : String
  versionId : String
  lastModified : String
  checks : List (String × String)
deriving Repr, DecidableEq

/-- output.pop of the skipped key before writer.writerow. -/
def ObjectResult.toRow (r : ObjectResult) : Row :=
  { bucket := r.bucket, key := r.key, size := r.size, eTag := r.eTag,
    versionId := r.versionId, lastModified := r.lastModified, checks := r.checks }

/-- Python dict lookup on an association list built by a comprehension:
a later binding of the same key overwrites an earlier one. -/
def dget (d : List (String × String)) (k : String) : Option String :=
  (d.reverse.find? (fun p => p.1 == k)).map (fun p => p.2)

/-- Python truthiness of s3_obj.get of the VersionId key: absent or empty
string is falsy. -/
def pyTruthyStr : Option String → Bool
  | none => false
  | some s => s != ""

/-- The while loop reading the body in chunks: stops at a falsy (empty)
chunk or at stream end, raises if a chunk read raises, and otherwise
returns the list of chunks fed to every accumulator. -/
def readChunks : List (Except Unit String) → Except Unit (List String)
  | [] => Except.ok []
  | Except.error _ :: _ => Except.error ()
  | Except.ok c :: rest =>
      if c = "" then Except.ok []
      else
        match readChunks rest with
        | Except.error e => Except.error e
        | Except.ok cs => Except.ok (c :: cs)

/-- check_existing_tags (get_all_s3_checksums.py lines 167-180): on a
ClientError from get_object_tagging return (False, empty dict); otherwise
return whether every required algorithm name is a tag key, together with
the full tag dict. -/
def check_existing_tags (st : ObjStoreState) (required : List String) :
    Bool × List (String × String) :=
  match st.getTagging with
  | Except.error _ => (false, [])
  | Except.ok tagSet => (required.all (fun c => (dget tagSet c).isSome), tagSet)

/-- Builds the result dict from fetched metadata. -/
def mkResult (bucket key : String) (meta : HeadMeta) (skipped : Bool)
    (checks : List (String × String)) : ObjectResult :=
  { bucket := bucket, key := key, size := meta.contentLength, eTag := meta.eTag,
    versionId := meta.versionId.getD "", lastModified := meta.lastModified,
    skipped := skipped, checks := checks }

/-- The computation part of get_s3_object_checksums (lines 212-262): the
get_object call is guarded by try/except ClientError and returns None on
failure; the chunk-read loop is NOT guarded, so a mid-stream read error
escapes as an exception (Except.error); both put_object_tagging calls sit
in a single try whose failure is caught and logged.  digest abstracts
hashlib: algorithm name and the chunks fed, to the hex digest. -/
def fullComputation (digest : String → List String → String) (st : ObjStoreState)
    (bucket key : String) (checksums : List String) (trace0 : List S3Call) :
    Except Unit (Option ObjectResult) × List S3Call :=
  match st.getObject with
  | Except.error _ => (Except.ok none, trace0 ++ [S3Call.getObjectC])
  | Except.ok resp =>
    match readChunks resp.body with
    | Except.error _ => (Except.error (), trace0 ++ [S3Call.getObjectC])
    | Except.ok chunks =>
      let checks := checksums.map (fun n => (n, digest n chunks))
      let result := mkResult bucket key resp.meta false checks
      let putTrace :=
        match st.putTagging with
        | Except.error _ => [S3Call.putTaggingC false]
        | Except.ok _ =>
          if pyTruthyStr resp.meta.versionId then
            [S3Call.putTaggingC false, S3Call.putTaggingC true]
          else [S3Call.putTaggingC false]
      (Except.ok (some result), trace0 ++ [S3Call.getObjectC] ++ putTrace)

/-- get_s3_object_checksums (get_all_s3_checksums.py lines 183-262).
Unless force, run the skip check; on a hit, head_object is fetched and,
if it succeeds, a skipped result is returned with checksum fields read
from the existing tags; if head_object raises ClientError the code falls
through to full computation. -/
def get_s3_object_checksums (digest : String → List String → String)
    (st : ObjStoreState) (bucket key : String) (checksums : List String)
    (force : Bool) : Except Unit (Option ObjectResult) × List S3Call :=
  if force then fullComputation digest st bucket key checksums []
  else
    let chk := check_existing_tags st checksums
    if chk.1 then
      match st.headObject with
      | Except.ok meta =>
          (Except.ok (some (mkResult bucket key meta true
            (checksums.map (fun n => (n, (dget chk.2 n).getD ""))))),
           [S3Call.getTaggingC, S3Call.headC])
      | Except.error _ =>
          fullComputation digest st bucket key checksums
            [S3Call.getTaggingC, S3Call.headC]
    else fullComputation digest st bucket key checksums [S3Call.getTaggingC]

/-- An enumerated object: bucket, key, region (list_s3_objects yields
dicts of this shape). -/
structure ObjDescriptor where
  bucket : String
  key : String
  region : String
deriving Repr, DecidableEq

/-- The Python guard `max_objects and count >= max_objects`: the cap is
truthy when it is a nonzero int, and the loop stops once count reached it. -/
def capReached (mo : Option Int) (count : Int) : Bool :=
  match mo with
  | none => false
  | some m => if m = 0 then false else decide (m ≤ count)

/-- Inner loop of list_s3_objects over one page of Contents: yields each
key, increments count, and returns early when the cap is reached.  Result:
objects yielded, final count, whether the generator returned early. -/
def pageLoop (bucket region : String) (mo : Option Int) :
    List String → Int → List ObjDescriptor × Int × Bool
  | [], count => ([], count, false)
  | k :: ks, count =>
      let count1 := count + 1
      if capReached mo count1 then ([⟨bucket, k, region⟩], count1, true)
      else
        let rest := pageLoop bucket region mo ks count1
        (⟨bucket, k, region⟩ :: rest.1, rest.2.1, rest.2.2)

/-- Outer pagination loop of list_s3_objects (lines 155-164): pages are
fetched in order; a ClientError while fetching a page is caught, a warning
is printed and the generator simply ends. -/
def pagesLoop (bucket region : String) (mo : Option Int) :
    List (Except Unit (List String)) → Int → List ObjDescriptor
  | [], _ => []
  | Except.error _ :: _, _ => []
  | Except.ok keys :: rest, count =>
      let r := pageLoop bucket region mo keys count
      if r.2.2 then r.1 else r.1 ++ pagesLoop bucket region mo rest r.2.1

/-- list_s3_objects (get_all_s3_checksums.py lines 145-164): a bucket with
undeterminable region yields nothing; otherwise paginate with the optional
object cap. -/
def list_s3_objects (region : Option String)
    (pages : List (Except Unit (List String))) (bucket : String)
    (mo : Option Int) : List ObjDescriptor :=
  match region with
  | none => []
  | some r => pagesLoop bucket r mo pages 0

/-- One update_bucket call on the PerformanceTracker: the objects, skipped
and bytes_processed arguments (lines 67-74 add each to the totals). -/
structure TrackerUpdate where
  objects : Nat
  skipped : Nat
  bytesProcessed : Int
deriving Repr, DecidableEq

/-- The body of the try block of process_bucket (lines 328-373), folded
over the stream of engine events.  Each event is one iteration of the for
loop: Except.ok is a yielded worker result (None results are skipped by
the `if output` guard), Except.error is an exception reaching the loop.
On an exception the temp file is removed and no sink is returned (the
accumulated tracker updates were already applied, the final flush is not).
Otherwise the remainder flush runs and the sink holds one row per non-None
result. -/
def process_bucket_go (rows : List Row) (objs skippedCount : Nat) (bytes : Int)
    (updates : List TrackerUpdate) :
    List (Except Unit (Option ObjectResult)) → Option (List Row) × List TrackerUpdate
  | [] =>
      let remaining := objs % 10
      if 0 < remaining ∨ objs = 0 then
        (some rows,
         updates ++ [⟨remaining, if objs < 10 then skippedCount else 0, bytes⟩])
      else
        (some rows, updates)
  | Except.error _ :: _ => (none, updates)
  | Except.ok none :: rest => process_bucket_go rows objs skippedCount bytes updates rest
  | Except.ok (some r) :: rest =>
      let objs1 := objs + 1
      let bytes1 := bytes + r.size
      let skipped1 := if r.skipped then skippedCount + 1 else skippedCount
      if objs1 % 10 = 0 then
        process_bucket_go (rows ++ [r.toRow]) objs1 skipped1 0
          (updates ++ [⟨10, if objs1 = 10 then skipped1 else 0, bytes1⟩]) rest
      else
        process_bucket_go (rows ++ [r.toRow]) objs1 skipped1 bytes1 updates rest

/-- process_bucket on a stream of engine events, starting from the empty
temp file and zeroed per-bucket counters.
Modelled from the spec: the Concurrency Engine (the vendored concurrently
module is not under src/) is taken from spec section 4.1 to deliver each
object task outcome exactly once, in arbitrary completion order; an error
event models an exception surfacing at the for loop. -/
def process_bucket (events : List (Except Unit (Option ObjectResult))) :
    Option (List Row) × List TrackerUpdate :=
  process_bucket_go [] 0 0 0 [] events

/-- The rows of the non-None results of an event stream, in stream order:
one per successfully completed object task. -/
def successRows (events : List (Except Unit (Option ObjectResult))) : List Row :=
  events.filterMap (fun e => match e with
    | Except.ok (some r) => some r.toRow
    | _ => none)

/-- Whether some event of the stream is an exception reaching the loop. -/
def hasRaise (events : List (Except Unit (Option ObjectResult))) : Bool :=
  events.any (fun e => match e with
    | Except.error _ => true
    | _ => false)

/-- A whole bucket pipeline: enumerate the bucket, process each object
(perObj gives the object task outcome per descriptor) and fold the results
through process_bucket. -/
def runBucket (region : Option String) (pages : List (Except Unit (List String)))
    (bucket : String) (mo : Option Int)
    (perObj : ObjDescriptor → Except Unit (Option ObjectResult)) :
    Option (List Row) × List TrackerUpdate :=
  process_bucket ((list_s3_objects region pages bucket mo).map perObj)

/-- main (lines 476-502): temp_files collects every non-None sink, and the
final artifact is their concatenation in collection order. -/
def finalArtifact (sinks : List (Option (List Row))) : List Row :=
  (sinks.filterMap id).flatten

/-- The temp_files list of main.
Modelled from the spec: the bucket-level Concurrency Engine (not under
src/) yields bucket results in completion order (spec section 4.1), so the
collection loop appends each bucket task sink in the order the tasks
completed; sinkOf maps a bucket index (in started order) to its sink. -/
def mainTempFiles (completionOrder : List Nat) (sinkOf : Nat → Option (List Row)) :
    List (List Row) :=
  completionOrder.filterMap sinkOf

/-- The final combined artifact of main: the collected temp files streamed
in collection order. -/
def mainFinalRows (completionOrder : List Nat) (sinkOf : Nat → Option (List Row)) :
    List Row :=
  (mainTempFiles completionOrder sinkOf).flatten

/-! ## Helper lemmas -/

/-- The returned value of the computation path does not depend on the
trace accumulated before it. -/
theorem fullComputation_fst_trace (digest : String → List String → String)
    (st : ObjStoreState) (bucket key : String) (checksums : List String)
    (t : List S3Call) :
    (fullComputation digest st bucket key checksums t).1
      = (fullComputation digest st bucket key checksums []).1 := by
  rcases hg : st.getObject with u | resp
  · simp [fullComputation, hg]
  · rcases hr : readChunks resp.body with u | chunks <;>
      simp [fullComputation, hg, hr]

/-- If some event of the stream raises, the bucket loop aborts: no sink is
returned, whatever the accumulated state. -/
theorem process_bucket_go_raise :
    ∀ (events : List (Except Unit (Option ObjectResult))),
      hasRaise events = true →
      ∀ rows objs skippedCount bytes updates,
        (process_bucket_go rows objs skippedCount bytes updates events).1 = none := by
  intro events
  induction events with
  | nil => intro h; simp [hasRaise] at h
  | cons e rest ih =>
      intro h rows objs skippedCount bytes updates
      match e with
      | Except.error _ => simp [process_bucket_go]
      | Except.ok none =>
          have h2 : hasRaise rest = true := by simpa [hasRaise] using h
          simpa [process_bucket_go] using ih h2 rows objs skippedCount bytes updates
      | Except.ok (some r) =>
          have h2 : hasRaise rest = true := by simpa [hasRaise] using h
          by_cases hc : (objs + 1) % 10 = 0 <;>
            simp [process_bucket_go, hc, ih h2]

/-- If no event raises, the loop runs to completion and the sink holds the
accumulated rows followed by one row per non-None result. -/
theorem process_bucket_go_rows :
    ∀ (events : List (Except Unit (Option ObjectResult))),
      hasRaise events = false →
      ∀ rows objs skippedCount bytes updates,
        (process_bucket_go rows objs skippedCount bytes updates events).1
          = some (rows ++ successRows events) := by
  intro events
  induction events with
  | nil =>
      intro _ rows objs skippedCount bytes updates
      simp only [process_bucket_go, successRows, List.filterMap_nil, List.append_nil]
      split <;> simp
  | cons e rest ih =>
      intro h rows objs skippedCount bytes updates
      match e with
      | Except.error _ => simp [hasRaise] at h
      | Except.ok none =>
          have h2 : hasRaise rest = false := by simpa [hasRaise] using h
          simpa [process_bucket_go, successRows] using
            ih h2 rows objs skippedCount bytes updates
      | Except.ok (some r) =>
          have h2 : hasRaise rest = false := by simpa [hasRaise] using h
          by_cases hc : (objs + 1) % 10 = 0 <;>
            simp [process_bucket_go, hc, ih h2, successRows, List.filterMap_cons]

/-- Closed characterization of the sink a bucket task returns: none when
an exception reaches the loop, otherwise exactly the rows of the non-None
results. -/
theorem process_bucket_fst (events : List (Except Unit (Option ObjectResult))) :
    (process_bucket events).1
      = if hasRaise events = true then none else some (successRows events) := by
  by_cases h : hasRaise events = true
  · simp [process_bucket, h, process_bucket_go_raise events h]
  · have h2 : hasRaise events = false := by simpa using h
    simp [process_bucket, h2, process_bucket_go_rows events h2]

/-- The rows the final artifact gets from one collected sink slot: nothing
for a failed bucket (none) and exactly its rows otherwise. -/
theorem finalArtifact_append (pre post : List (Option (List Row)))
    (s : Option (List Row)) :
    finalArtifact (pre ++ s :: post)
      = finalArtifact pre ++ s.getD [] ++ finalArtifact post := by
  cases s <;>
    simp [finalArtifact, List.filterMap_append, List.filterMap_cons,
      List.flatten_append]

/-! ## Concrete sample store states used by counterexamples and witnesses -/

/-- A digest placeholder used in concrete runs (the hash algorithms are an
external collaborator; nothing depends on their values). -/
def hexD : String → List String → String := fun _ _ => "D"

/-- Unversioned sample metadata. -/
def meta0 : HeadMeta :=
  { contentLength := 2, eTag := "e", versionId := none, lastModified := "t" }

/-- Versioned sample metadata (VersionId "v1"). -/
def metaV : HeadMeta :=
  { contentLength := 2, eTag := "e", versionId := some "v1", lastModified := "t" }

/-- A store state with complete md5 tagging but a failing head_object. -/
def stHeadFails : ObjStoreState :=
  { getTagging := Except.ok [("md5", "aa")],
    headObject := Except.error (),
    getObject := Except.ok { meta := meta0, body := [Except.ok "hi"] },
    putTagging := Except.ok (),
    putTaggingVersioned := Except.ok () }

/-- A store state with complete md5 tagging and a working head_object. -/
def stSkipHit : ObjStoreState :=
  { stHeadFails with headObject := Except.ok meta0 }

/-- A store state whose tag read raises and whose body reads succeed. -/
def stTagReadFails : ObjStoreState :=
  { stHeadFails with getTagging := Except.error () }

/-- A store state whose body stream raises mid-read (after one chunk). -/
def stMidStream : ObjStoreState :=
  { getTagging := Except.error (),
    headObject := Except.error (),
    getObject := Except.ok { meta := meta0, body := [Except.ok "ab", Except.error ()] },
    putTagging := Except.ok (),
    putTaggingVersioned := Except.ok () }

/-- A store state whose get_object call itself raises ClientError. -/
def stGetFails : ObjStoreState :=
  { stMidStream with getObject := Except.error () }

/-- A versioned object whose unversioned tag write fails. -/
def stPutFails : ObjStoreState :=
  { getTagging := Except.error (),
    headObject := Except.error (),
    getObject := Except.ok { meta := metaV, body := [Except.ok "hi"] },
    putTagging := Except.error (),
    putTaggingVersioned := Except.ok () }

/-- A versioned object whose tag writes both succeed. -/
def stPutOk : ObjStoreState :=
  { stPutFails with putTagging := Except.ok () }

/-- A versioned object on which BOTH tag writes fail. -/
def stPutBothFail : ObjStoreState :=
  { stPutFails with putTaggingVersioned := Except.error () }

/-! ## Claim C1 -/

/-- Claim C1 counterexample: an object whose tags contain every requested
algorithm (md5 tagged "aa"), force = false, but whose metadata fetch
raises ClientError.  The processor falls through to full computation: the
body stream IS opened (getObjectC in the trace) and the returned result
has skipped = false with a freshly computed digest, not the tag value.
This contradicts the claim, which asserts the body is never opened and
skipped = true whenever the tags are complete and force is off. -/
theorem c1_counterexample :
    get_s3_object_checksums hexD stHeadFails "b" "k" ["md5"] false
      = (Except.ok (some { bucket := "b", key := "k", size := 2, eTag := "e",
                           versionId := "", lastModified := "t", skipped := false,
                           checks := [("md5", "D")] }),
         [S3Call.getTaggingC, S3Call.headC, S3Call.getObjectC,
          S3Call.putTaggingC false]) := by
  rfl

/-- Claim C1 (amended): for every object whose existing tags contain every
requested algorithm name as a tag key, when force = false AND the metadata
(head) fetch succeeds, the processor never opens the body stream (the
trace is exactly the tag read and the head call, no getObjectC) and
returns an ObjectResult with skipped = true whose checksum fields are
exactly the existing tag values, not recomputed. -/
theorem c1_skip_uses_tags (digest : String → List String → String)
    (st : ObjStoreState) (bucket key : String) (checksums : List String)
    (ts : List (String × String)) (meta : HeadMeta)
    (h1 : st.getTagging = Except.ok ts)
    (h2 : checksums.all (fun c => (dget ts c).isSome) = true)
    (h3 : st.headObject = Except.ok meta) :
    get_s3_object_checksums digest st bucket key checksums false
      = (Except.ok (some (mkResult bucket key meta true
          (checksums.map (fun n => (n, (dget ts n).getD ""))))),
         [S3Call.getTaggingC, S3Call.headC]) ∧
    ∀ n ∈ checksums, ∃ v, dget ts n = some v ∧
        (n, v) ∈ checksums.map (fun n2 => (n2, (dget ts n2).getD "")) := by
  constructor
  · simp [get_s3_object_checksums, check_existing_tags, h1, h2, h3]
  · intro n hn
    have hs : (dget ts n).isSome := by
      have := List.all_eq_true.mp h2 n hn
      simpa using this
    rcases Option.isSome_iff_exists.mp hs with ⟨v, hv⟩
    refine ⟨v, hv, List.mem_map.mpr ⟨n, hn, ?_⟩⟩
    simp [hv]

/-- Witness for c1_skip_uses_tags at a concrete store state. -/
theorem c1_skip_uses_tags_witness :
    get_s3_object_checksums hexD stSkipHit "b" "k" ["md5"] false
      = (Except.ok (some (mkResult "b" "k" meta0 true
          ((["md5"]).map (fun n => (n, (dget [("md5", "aa")] n).getD ""))))),
         [S3Call.getTaggingC, S3Call.headC]) ∧
    ∀ n ∈ ["md5"], ∃ v, dget [("md5", "aa")] n = some v ∧
        (n, v) ∈ (["md5"]).map (fun n2 => (n2, (dget [("md5", "aa")] n2).getD "")) :=
  c1_skip_uses_tags hexD stSkipHit "b" "k" ["md5"] [("md5", "aa")] meta0
    rfl (by decide) rfl

/-! ## Claim C8 -/

/-- Claim C8: for every object whose digests were computed (the body fetch
and every chunk read succeeded), the returned value is the successfully
computed ObjectResult with the freshly computed checksum values — the
right-hand side mentions neither putTagging nor putTaggingVersioned, so a
tag write-back failure leaves the returned result unchanged and the task
still succeeds. -/
theorem c8_tag_writeback_nonfatal (digest : String → List String → String)
    (st : ObjStoreState) (bucket key : String) (checksums : List String)
    (resp : GetObjResp) (chunks : List String)
    (h1 : st.getObject = Except.ok resp)
    (h2 : readChunks resp.body = Except.ok chunks) :
    (get_s3_object_checksums digest st bucket key checksums true).1
      = Except.ok (some (mkResult bucket key resp.meta false
          (checksums.map (fun n => (n, digest n chunks))))) := by
  simp [get_s3_object_checksums, fullComputation, h1, h2]

/-- Witness for c8_tag_writeback_nonfatal at a store state where BOTH tag
writes fail: the computed result is returned all the same. -/
theorem c8_tag_writeback_nonfatal_witness :
    (get_s3_object_checksums hexD stPutBothFail "b" "k" ["md5"] true).1
      = Except.ok (some (mkResult "b" "k" metaV false
          ((["md5"]).map (fun n => (n, hexD n ["hi"]))))) :=
  c8_tag_writeback_nonfatal hexD stPutBothFail "b" "k" ["md5"]
    { meta := metaV, body := [Except.ok "hi"] } ["hi"] rfl rfl

/-! ## Claim C9 -/

/-- Claim C9: when force = false and the tag fetch itself raises a store
error, the skip check reports a miss with no tags, and the processor
behaves exactly as with force = true: it proceeds to full checksum
computation, and the tag-read failure alone never changes the task
outcome (in particular it never fails the task by itself). -/
theorem c9_tag_read_error_misses (digest : String → List String → String)
    (st : ObjStoreState) (bucket key : String) (checksums : List String)
    (h : st.getTagging = Except.error ()) :
    check_existing_tags st checksums = (false, []) ∧
    get_s3_object_checksums digest st bucket key checksums false
      = fullComputation digest st bucket key checksums [S3Call.getTaggingC] ∧
    (get_s3_object_checksums digest st bucket key checksums false).1
      = (get_s3_object_checksums digest st bucket key checksums true).1 := by
  refine ⟨?_, ?_, ?_⟩
  · simp [check_existing_tags, h]
  · simp [get_s3_object_checksums, check_existing_tags, h]
  · simp [get_s3_object_checksums, check_existing_tags, h,
      fullComputation_fst_trace]

/-- Witness for c9_tag_read_error_misses at a concrete store state. -/
theorem c9_tag_read_error_misses_witness :
    check_existing_tags stTagReadFails ["md5"] = (false, []) ∧
    get_s3_object_checksums hexD stTagReadFails "b" "k" ["md5"] false
      = fullComputation hexD stTagReadFails "b" "k" ["md5"] [S3Call.getTaggingC] ∧
    (get_s3_object_checksums hexD stTagReadFails "b" "k" ["md5"] false).1
      = (get_s3_object_checksums hexD stTagReadFails "b" "k" ["md5"] true).1 :=
  c9_tag_read_error_misses hexD stTagReadFails "b" "k" ["md5"] rfl

/-! ## Claim C3 -/

/-- Claim C3 counterexample: an object whose get_object call succeeds but
whose body stream raises on the second chunk read.  The chunk-read loop of
get_s3_object_checksums is not inside any try/except, so the exception
escapes the object task (Except.error) instead of the task failing by
returning no result (Except.ok none), contradicting the claim. -/
theorem c3_counterexample :
    (get_s3_object_checksums hexD stMidStream "b" "k" ["md5"] true).1
        = Except.error () ∧
    (get_s3_object_checksums hexD stMidStream "b" "k" ["md5"] true).1
        ≠ Except.ok none :=
  ⟨rfl, fun h => Except.noConfusion h⟩

/-- Claim C3 (amended): a fetch error at the initial get_object call is
caught and makes the object task fail by returning no result; but an error
raised mid-stream while reading body chunks escapes the object task as an
exception, and an exception reaching the bucket loop makes process_bucket
discard the whole scratch sink, so sibling results in the same bucket are
lost with it. -/
theorem c3_midstream_error_escapes (digest : String → List String → String)
    (st1 st2 : ObjStoreState) (bucket key : String) (checksums : List String)
    (resp : GetObjResp)
    (h1 : st1.getObject = Except.error ())
    (h2 : st2.getObject = Except.ok resp)
    (h3 : readChunks resp.body = Except.error ())
    (pre suf : List (Except Unit (Option ObjectResult))) :
    (get_s3_object_checksums digest st1 bucket key checksums true).1
        = Except.ok none ∧
    (get_s3_object_checksums digest st2 bucket key checksums true).1
        = Except.error () ∧
    (process_bucket (pre ++ Except.error () :: suf)).1 = none := by
  refine ⟨?_, ?_, ?_⟩
  · simp [get_s3_object_checksums, fullComputation, h1]
  · simp [get_s3_object_checksums, fullComputation, h2, h3]
  · have hr : hasRaise (pre ++ Except.error () :: suf) = true := by
      simp [hasRaise]
    simpa [process_bucket_fst] using hr

/-- Witness for c3_midstream_error_escapes at concrete store states. -/
theorem c3_midstream_error_escapes_witness :
    (get_s3_object_checksums hexD stGetFails "b" "k" ["md5"] true).1
        = Except.ok none ∧
    (get_s3_object_checksums hexD stMidStream "b" "k" ["md5"] true).1
        = Except.error () ∧
    (process_bucket ([] ++ Except.error () :: [])).1 = none :=
  c3_midstream_error_escapes hexD stGetFails stMidStream "b" "k" ["md5"]
    { meta := meta0, body := [Except.ok "ab", Except.error ()] }
    rfl rfl rfl [] []

/-! ## Claim C6 -/

/-- Claim C6 counterexample: a versioned object (VersionId "v1") whose
unversioned put_object_tagging raises.  Both writes sit in one try block,
so the version-scoped write is never attempted: the trace holds only the
unversioned attempt, contradicting the claim that a failure of either
write does not prevent the other from being attempted. -/
theorem c6_counterexample :
    (get_s3_object_checksums hexD stPutFails "b" "k" ["md5"] true).2
        = [S3Call.getObjectC, S3Call.putTaggingC false] ∧
    S3Call.putTaggingC true
        ∉ (get_s3_object_checksums hexD stPutFails "b" "k" ["md5"] true).2 := by
  exact ⟨rfl, by decide⟩

/-- Claim C6 (amended): for a versioned object whose digests were
computed, the version-scoped tag write is attempted exactly when the
unversioned write succeeds; both writes live in one protected region, so
a failure of the first suppresses the second, while either failure is
caught and the computed result is still returned. -/
theorem c6_versioned_put_dependent (digest : String → List String → String)
    (st1 st2 : ObjStoreState) (bucket key : String) (checksums : List String)
    (resp1 resp2 : GetObjResp) (chunks1 chunks2 : List String)
    (h1 : st1.getObject = Except.ok resp1)
    (h2 : readChunks resp1.body = Except.ok chunks1)
    (h3 : pyTruthyStr resp1.meta.versionId = true)
    (h4 : st1.putTagging = Except.ok ())
    (h5 : st2.getObject = Except.ok resp2)
    (h6 : readChunks resp2.body = Except.ok chunks2)
    (h7 : pyTruthyStr resp2.meta.versionId = true)
    (h8 : st2.putTagging = Except.error ()) :
    (get_s3_object_checksums digest st1 bucket key checksums true).2
        = [S3Call.getObjectC, S3Call.putTaggingC false, S3Call.putTaggingC true] ∧
    (get_s3_object_checksums digest st2 bucket key checksums true).2
        = [S3Call.getObjectC, S3Call.putTaggingC false] ∧
    (get_s3_object_checksums digest st1 bucket key checksums true).1
        = Except.ok (some (mkResult bucket key resp1.meta false
            (checksums.map (fun n => (n, digest n chunks1))))) ∧
    (get_s3_object_checksums digest st2 bucket key checksums true).1
        = Except.ok (some (mkResult bucket key resp2.meta false
            (checksums.map (fun n => (n, digest n chunks2))))) := by
  refine ⟨?_, ?_, ?_, ?_⟩ <;>
    simp [get_s3_object_checksums, fullComputation, h1, h2, h3, h4, h5, h6, h7, h8]

/-- Witness for c6_versioned_put_dependent at concrete store states. -/
theorem c6_versioned_put_dependent_witness :
    (get_s3_object_checksums hexD stPutOk "b" "k" ["md5"] true).2
        = [S3Call.getObjectC, S3Call.putTaggingC false, S3Call.putTaggingC true] ∧
    (get_s3_object_checksums hexD stPutFails "b" "k" ["md5"] true).2
        = [S3Call.getObjectC, S3Call.putTaggingC false] ∧
    (get_s3_object_checksums hexD stPutOk "b" "k" ["md5"] true).1
        = Except.ok (some (mkResult "b" "k" metaV false
            ((["md5"]).map (fun n => (n, hexD n ["hi"]))))) ∧
    (get_s3_object_checksums hexD stPutFails "b" "k" ["md5"] true).1
        = Except.ok (some (mkResult "b" "k" metaV false
            ((["md5"]).map (fun n => (n, hexD n ["hi"]))))) :=
  c6_versioned_put_dependent hexD stPutOk stPutFails "b" "k" ["md5"]
    { meta := metaV, body := [Except.ok "hi"] }
    { meta := metaV, body := [Except.ok "hi"] }
    ["hi"] ["hi"] rfl rfl rfl rfl rfl rfl rfl rfl

/-! ## Claim C2 -/

/-- Claim C2: the sink a bucket task hands to the orchestrator is none
exactly when an exception reached its loop (the scratch file was deleted),
and otherwise holds exactly one row per successfully completed (non-None)
object task; and the final artifact receives from each collected sink slot
exactly its rows — nothing at all for a failed bucket, regardless of its
partial progress, and the rows of every other bucket unchanged. -/
theorem c2_bucket_rows (events : List (Except Unit (Option ObjectResult)))
    (pre post : List (Option (List Row))) :
    ((process_bucket events).1
        = if hasRaise events = true then none else some (successRows events)) ∧
    finalArtifact (pre ++ (process_bucket events).1 :: post)
      = finalArtifact pre ++ ((process_bucket events).1).getD []
          ++ finalArtifact post :=
  ⟨process_bucket_fst events, finalArtifact_append pre post _⟩

/-! ## Claim C7 -/

/-- One result dict with the given skipped flag and size one. -/
def c7Res (sk : Bool) : ObjectResult :=
  { bucket := "b", key := "k", size := 1, eTag := "e", versionId := "",
    lastModified := "t", skipped := sk, checks := [] }

/-- Eleven successful object results, only the eleventh skipped. -/
def c7Events : List (Except Unit (Option ObjectResult)) :=
  List.replicate 10 (Except.ok (some (c7Res false))) ++ [Except.ok (some (c7Res true))]

/-- Claim C7 evaluated at the failing input: a bucket that completes
without failing, writing eleven results of which only the eleventh is
skipped.  The batch update at ten results passes the skips seen so far
(zero) and the final remainder flush passes skipped only when fewer than
ten results were written, so the skipped counter sums to 0 while one
object was skipped — the objects counter is exact (11), the skipped
counter is not, contradicting the claim (the batching logic drops every
skip recorded after the first batch of ten). -/
theorem c7_skipped_undercount :
    ((process_bucket c7Events).2.map (fun u => u.skipped)).sum = 0 ∧
    (c7Events.filterMap (fun e => match e with
      | Except.ok (some r) => if r.skipped then some () else none
      | _ => none)).length = 1 ∧
    ((process_bucket c7Events).2.map (fun u => u.objects)).sum = 11 := by
  decide

/-! ## Listing lemmas -/

/-- With a never-reached cap the page loop yields every key of the page. -/
theorem pageLoop_nocap (b r : String) (mo : Option Int)
    (h : ∀ c, capReached mo c = false) :
    ∀ (ks : List String) (c : Int),
      pageLoop b r mo ks c
        = (ks.map (fun k => ⟨b, k, r⟩), c + ks.length, false) := by
  intro ks
  induction ks with
  | nil => intro c; simp [pageLoop]
  | cons k ks ih =>
      intro c
      simp [pageLoop, h (c + 1), ih (c + 1), Prod.ext_iff]
      all_goals omega

/-- With a never-reached cap the pagination loop ignores its count. -/
theorem pagesLoop_nocap (b r : String) (mo : Option Int)
    (h : ∀ c, capReached mo c = false) :
    ∀ (pages : List (Except Unit (List String))) (c c2 : Int),
      pagesLoop b r mo pages c = pagesLoop b r none pages c2 := by
  intro pages
  induction pages with
  | nil => intro c c2; rfl
  | cons p rest ih =>
      intro c c2
      cases p with
      | error u => rfl
      | ok keys =>
          have hthis := ih (c + keys.length) (c2 + keys.length)
          simp [pagesLoop, pageLoop_nocap b r mo h,
            pageLoop_nocap b r none (fun c3 => rfl), hthis]

/-- A ClientError page mid-listing ends the generator: everything after it
is never fetched, so the yields are those of the pages before it. -/
theorem pagesLoop_append_error (b r : String) (mo : Option Int)
    (p2 : List (Except Unit (List String))) :
    ∀ (p1 : List (Except Unit (List String))) (c : Int),
      pagesLoop b r mo (p1 ++ Except.error () :: p2) c
        = pagesLoop b r mo p1 c := by
  intro p1
  induction p1 with
  | nil => intro c; rfl
  | cons p rest ih =>
      intro c
      cases p with
      | error u => rfl
      | ok keys =>
          by_cases hs : (pageLoop b r mo keys c).2.2 = true <;>
            simp [pagesLoop, hs, ih]

/-- Characterization of the page loop under a truthy (nonzero) cap: from
count c the loop yields at most max (m - c) 1 further objects. -/
theorem pageLoop_cap (b r : String) (m : Int) (hm : m ≠ 0) :
    ∀ (ks : List String) (c : Int),
      pageLoop b r (some m) ks c
        = if ks.length < (max (m - c) 1).toNat then
            (ks.map (fun k => ⟨b, k, r⟩), c + ks.length, false)
          else
            ((ks.map (fun k => ⟨b, k, r⟩)).take ((max (m - c) 1).toNat),
             c + ((max (m - c) 1).toNat : Int), true) := by
  intro ks
  induction ks with
  | nil =>
      intro c
      have hn : 0 < (max (m - c) 1).toNat := by
        have h1 : (1 : Int) ≤ max (m - c) 1 := le_max_right _ _
        omega
      simp [pageLoop, hn]
  | cons k ks ih =>
      intro c
      by_cases hstop : m ≤ c + 1
      · have hmax : max (m - c) 1 = 1 := max_eq_right (by omega)
        have hcap : capReached (some m) (c + 1) = true := by
          simp [capReached, hm, hstop]
        simp [pageLoop, hcap, hmax]
      · have hcap : capReached (some m) (c + 1) = false := by
          simp only [capReached, hm, if_false, decide_eq_false_iff_not]
          omega
        have hmax : max (m - c) 1 = m - c := max_eq_left (by omega)
        have hmax1 : max (m - (c + 1)) 1 = m - (c + 1) := max_eq_left (by omega)
        have hn1 : (max (m - (c + 1)) 1).toNat + 1 = (max (m - c) 1).toNat := by
          rw [hmax, hmax1]; omega
        simp only [pageLoop, hcap, Bool.false_eq_true, if_false, ih (c + 1),
          List.map_cons, List.length_cons]
        by_cases hlen : ks.length < (max (m - (c + 1)) 1).toNat
        · have hlen2 : ks.length + 1 < (max (m - c) 1).toNat := by omega
          simp [hlen, hlen2, Prod.ext_iff]
          all_goals omega
        · have hlen2 : ¬ (ks.length + 1 < (max (m - c) 1).toNat) := by omega
          simp only [hlen, if_false, hlen2]
          rw [← hn1]
          simp [List.take_succ_cons, Prod.ext_iff]
          all_goals omega

/-- Under a truthy (nonzero) cap, the enumeration from count c is exactly
a prefix of the uncapped enumeration: its first max (m - c) 1 objects. -/
theorem pagesLoop_cap (b r : String) (m : Int) (hm : m ≠ 0) :
    ∀ (pages : List (Except Unit (List String))) (c : Int),
      pagesLoop b r (some m) pages c
        = (pagesLoop b r none pages 0).take ((max (m - c) 1).toNat) := by
  intro pages
  induction pages with
  | nil => intro c; simp [pagesLoop]
  | cons p rest ih =>
      intro c
      cases p with
      | error u => simp [pagesLoop]
      | ok keys =>
          have hnone : pageLoop b r none keys 0
              = (keys.map (fun k => ⟨b, k, r⟩), (0 : Int) + keys.length, false) :=
            pageLoop_nocap b r none (fun c3 => rfl) keys 0
          have hcount : pagesLoop b r none rest ((0 : Int) + keys.length)
              = pagesLoop b r none rest 0 :=
            pagesLoop_nocap b r none (fun c3 => rfl) rest _ 0
          by_cases hlen : keys.length < (max (m - c) 1).toNat
          · have harith : (max (m - (c + keys.length)) 1).toNat
                = (max (m - c) 1).toNat - keys.length := by
              rcases max_cases (m - c) 1 with ⟨he, hle⟩ | ⟨he, hlt⟩ <;>
                rcases max_cases (m - (c + (keys.length : Int))) 1 with ⟨he2, hle2⟩ | ⟨he2, hlt2⟩ <;>
                  omega
            have htake : (keys.map (fun k => ⟨b, k, r⟩)).take ((max (m - c) 1).toNat)
                = keys.map (fun k => (⟨b, k, r⟩ : ObjDescriptor)) := by
              apply List.take_of_length_le
              simp only [List.length_map]
              omega
            simp only [pagesLoop, pageLoop_cap b r m hm keys c, hlen, if_true,
              hnone, Bool.false_eq_true, if_false, hcount,
              List.take_append_eq_append_take, htake, List.length_map,
              ih (c + keys.length), harith]
          · have hsub : (max (m - c) 1).toNat - keys.length = 0 := by omega
            simp only [pagesLoop, pageLoop_cap b r m hm keys c, hlen, if_false,
              hnone, Bool.false_eq_true, hcount,
              List.take_append_eq_append_take, List.length_map, hsub,
              List.take_zero, List.append_nil]
            simp

/-! ## Claim C4 -/

/-- A sample successful object result for bucket bkt. -/
def c4Res : ObjectResult :=
  { bucket := "bkt", key := "k1", size := 1, eTag := "e", versionId := "",
    lastModified := "t", skipped := false, checks := [] }

/-- An object task that always succeeds with c4Res. -/
def c4PerObj : ObjDescriptor → Except Unit (Option ObjectResult) :=
  fun _ => Except.ok (some c4Res)

/-- Claim C4 counterexample: a bucket whose enumeration raises ClientError
after one object was yielded, every object task succeeding.  The
ClientError is caught inside the generator, so the bucket pipeline
completes normally: the sink is returned (not deleted) and holds the one
row — the final artifact gets one row from this bucket, not zero, and the
pipeline was never marked failed.  This contradicts the claim. -/
theorem c4_counterexample :
    (runBucket (some "r") [Except.ok ["k1"], Except.error ()] "bkt" none c4PerObj).1
      = some [c4Res.toRow] ∧
    (some [c4Res.toRow] : Option (List Row)) ≠ none := by
  exact ⟨rfl, by simp⟩

/-- Claim C4 (amended): a store ClientError partway through enumeration is
swallowed inside the enumerator, which simply stops: the bucket pipeline
behaves exactly as if the listing ended at the failing page, and when no
object task raises, the pipeline does NOT fail — its sink is returned and
holds one row per object yielded before the error, and those rows reach
the final artifact (rows of other buckets come from their own sinks and
are untouched). -/
theorem c4_enumeration_error_swallowed (region : Option String)
    (p1 p2 : List (Except Unit (List String))) (bucket : String)
    (mo : Option Int)
    (perObj : ObjDescriptor → Except Unit (Option ObjectResult))
    (h : ∀ d, perObj d ≠ Except.error ()) :
    runBucket region (p1 ++ Except.error () :: p2) bucket mo perObj
      = runBucket region p1 bucket mo perObj ∧
    (runBucket region p1 bucket mo perObj).1
      = some (successRows ((list_s3_objects region p1 bucket mo).map perObj)) := by
  constructor
  · cases region with
    | none => rfl
    | some r =>
        have e1 : ∀ pp, list_s3_objects (some r) pp bucket mo
            = pagesLoop bucket r mo pp 0 := fun pp => rfl
        simp only [runBucket, e1, pagesLoop_append_error]
  · have hr : hasRaise ((list_s3_objects region p1 bucket mo).map perObj) = false := by
      rw [hasRaise, List.any_eq_false]
      intro e he
      rcases List.mem_map.mp he with ⟨d, hd, rfl⟩
      cases hpd : perObj d with
      | error u => cases u; exact absurd hpd (h d)
      | ok v => simp [hpd]
    rw [runBucket, process_bucket_fst, hr]
    simp

/-- Witness for c4_enumeration_error_swallowed at a concrete listing. -/
theorem c4_enumeration_error_swallowed_witness :
    runBucket (some "r") ([Except.ok ["k1"]] ++ Except.error () :: []) "bkt" none c4PerObj
      = runBucket (some "r") [Except.ok ["k1"]] "bkt" none c4PerObj ∧
    (runBucket (some "r") [Except.ok ["k1"]] "bkt" none c4PerObj).1
      = some (successRows
          ((list_s3_objects (some "r") [Except.ok ["k1"]] "bkt" none).map c4PerObj)) :=
  c4_enumeration_error_swallowed (some "r") [Except.ok ["k1"]] [] "bkt" none
    c4PerObj (fun d hd => by simp [c4PerObj] at hd)

/-! ## Claim C10 -/

/-- Claim C10 counterexample: a negative cap (-1) also truncates the
enumeration — it yields only the first of two objects — contradicting the
claim that the cap truncates only when it is a positive number (the Python
guard tests truthiness, and -1 is truthy with count >= -1 immediately
true). -/
theorem c10_counterexample :
    list_s3_objects (some "r") [Except.ok ["a", "b"]] "bkt" (some (-1))
        = [{ bucket := "bkt", key := "a", region := "r" }] ∧
    list_s3_objects (some "r") [Except.ok ["a", "b"]] "bkt" (some (-1))
        ≠ list_s3_objects (some "r") [Except.ok ["a", "b"]] "bkt" none := by
  exact ⟨rfl, by decide⟩

/-- Claim C10 (amended): a cap of 0 is falsy and treated as no cap at all
(enumeration yields every object), while ANY nonzero cap m truncates: the
enumeration is the first (max m 1).toNat objects of the uncapped one — a
positive cap yields the first m objects, and a negative cap yields just
the first object rather than not truncating. -/
theorem c10_cap_semantics (region : Option String)
    (pages : List (Except Unit (List String))) (bucket : String)
    (m : Int) (hm : m ≠ 0) :
    list_s3_objects region pages bucket (some 0)
        = list_s3_objects region pages bucket none ∧
    list_s3_objects region pages bucket (some m)
        = (list_s3_objects region pages bucket none).take ((max m 1).toNat) := by
  constructor
  · cases region with
    | none => rfl
    | some r =>
        exact pagesLoop_nocap bucket r (some 0) (fun c => by simp [capReached]) pages 0 0
  · cases region with
    | none => simp [list_s3_objects]
    | some r =>
        have := pagesLoop_cap bucket r m hm pages 0
        simpa using this

/-- Witness for c10_cap_semantics with the cap -1 on a two-object bucket. -/
theorem c10_cap_semantics_witness :
    list_s3_objects (some "r") [Except.ok ["a", "b"]] "bkt" (some 0)
        = list_s3_objects (some "r") [Except.ok ["a", "b"]] "bkt" none ∧
    list_s3_objects (some "r") [Except.ok ["a", "b"]] "bkt" (some (-1))
        = (list_s3_objects (some "r") [Except.ok ["a", "b"]] "bkt" none).take
            ((max (-1 : Int) 1).toNat) :=
  c10_cap_semantics (some "r") [Except.ok ["a", "b"]] "bkt" (-1) (by decide)

/-! ## Claim C5 -/

/-- A sample row with the given key. -/
def c5Row (k : String) : Row :=
  { bucket := "b", key := k, size := 0, eTag := "e", versionId := "",
    lastModified := "t", checks := [] }

/-- Started-order sinks of a two-bucket run: bucket 0 produced row "a",
bucket 1 produced row "z". -/
def c5Sinks : Nat → Option (List Row) :=
  fun i => if i = 0 then some [c5Row "a"] else if i = 1 then some [c5Row "z"] else none

/-- Claim C5 counterexample: with bucket-level concurrency above one the
engine can yield the bucket started second before the bucket started
first; the collection loop appends sinks in that yield (completion) order,
so the final artifact differs from the started-order artifact —
contradicting the claim that sinks are streamed in started order for every
run with equal concurrency. -/
theorem c5_counterexample :
    mainFinalRows [1, 0] c5Sinks ≠ mainFinalRows [0, 1] c5Sinks := by
  decide

/-- Claim C5 (amended): the aggregator streams the collected sinks in the
order their owning bucket tasks COMPLETED, not the order they started;
permuting the completion order permutes the artifact rows (the multiset of
rows is stable, so byte-identical repeated runs are only guaranteed when
the completion order is reproduced, e.g. sequential bucket processing). -/
theorem c5_completion_order (o1 o2 : List Nat) (sinkOf : Nat → Option (List Row))
    (h : o1.Perm o2) :
    (mainFinalRows o1 sinkOf).Perm (mainFinalRows o2 sinkOf) :=
  ((h.filterMap sinkOf).flatten :
    (List.flatten (mainTempFiles o1 sinkOf)).Perm
      (List.flatten (mainTempFiles o2 sinkOf)))

/-- Witness for c5_completion_order at the two completion orders of the
two-bucket run. -/
theorem c5_completion_order_witness :
    ([1, 0] : List Nat).Perm [0, 1] ∧
    (mainFinalRows [1, 0] c5Sinks).Perm (mainFinalRows [0, 1] c5Sinks) :=
  ⟨by decide, c5_completion_order [1, 0] [0, 1] c5Sinks (by decide)⟩

end S3Checksums
